import Mathlib

/-!
Shallow embedding of the carrot image-generation service
(`vast-backup-20251015-115024/generator_api.py`, `prompt_styles.py`,
`prompt_builder.py`, `firebase_utils.py`) and proofs of the spec claims.

Conventions: Python ints are `ℕ`/`ℤ`; Python floats in this code are exact
decimal literals, embedded as `ℚ`; fallible external calls are passed in as
explicit outcome values (`Except`/`Option`); `PIL.Image` values are opaque,
embedded as a type parameter; the two module-global pipeline slots of
`generator_api.py` are an explicit `PipelineState` threaded through the
resource-relevant operations.
-/

namespace Carrot

/-! ## prompt_styles.py -/

/-- The `StylePreset` dataclass of `prompt_styles.py`. -/
structure StylePreset where
  name : String
  positive_tags : List String
  negative_tags : List String
  resolution : ℕ × ℕ
  steps : ℕ
  cfg : ℚ
  hires : Bool
  hires_scale : ℚ
  hires_denoise : ℚ
deriving DecidableEq, Repr

/-- The `NEGATIVE_BASE` string of `prompt_styles.py`. -/
def NEGATIVE_BASE : String :=
  "blurry, lowres, bad anatomy, deformed, disfigured, extra limbs, bad hands, cross-eye, " ++
  "text, watermark, logo, jpeg artifacts, oversharpened, noisy, grainy, duplicate, malformed"

/-- The `"photoreal_portrait"` preset. -/
def photoreal_portrait : StylePreset :=
  { name := "photoreal_portrait"
    positive_tags :=
      ["ultra-detailed, photorealistic, 35mm, shallow depth of field, skin pores, natural light",
       "sharp focus, catchlight eyes, well-defined iris, symmetrical face, cinematic lighting"]
    negative_tags := [NEGATIVE_BASE, "overprocessed skin, plastic skin, uncanny valley"]
    resolution := (1024, 1024)
    steps := 35
    cfg := 7
    hires := true
    hires_scale := 2
    hires_denoise := 35/100 }

/-- The `"cinematic"` preset. -/
def cinematic : StylePreset :=
  { name := "cinematic"
    positive_tags :=
      ["cinematic still, volumetric light, film grain subtle, arri alexa, moody shadows, rim light",
       "masterpiece, best quality, sharp details"]
    negative_tags := [NEGATIVE_BASE]
    resolution := (1024, 1024)
    steps := 35
    cfg := 7
    hires := true
    hires_scale := 3/2
    hires_denoise := 35/100 }

/-- The `"editorial"` preset. -/
def editorial : StylePreset :=
  { name := "editorial"
    positive_tags :=
      ["fashion editorial, studio lighting, softbox, crisp edges, glossy magazine look, rich color",
       "sharp eyes, perfect makeup, detailed hair strands, high contrast"]
    negative_tags := [NEGATIVE_BASE, "overexposed highlights, blown highlights"]
    resolution := (1024, 1280)
    steps := 36
    cfg := 72/10
    hires := true
    hires_scale := 17/10
    hires_denoise := 38/100 }

/-- The `"street"` preset. -/
def street : StylePreset :=
  { name := "street"
    positive_tags :=
      ["documentary, candid, natural light, realistic color, fine texture, subtle grain"]
    negative_tags := [NEGATIVE_BASE]
    resolution := (1024, 1024)
    steps := 32
    cfg := 68/10
    hires := true
    hires_scale := 3/2
    hires_denoise := 32/100 }

/-- The `"neon"` preset. -/
def neon : StylePreset :=
  { name := "neon"
    positive_tags :=
      ["neon lights, reflective surfaces, rain-soaked streets, bokeh, high contrast, glows"]
    negative_tags := [NEGATIVE_BASE]
    resolution := (1024, 1024)
    steps := 35
    cfg := 75/10
    hires := true
    hires_scale := 18/10
    hires_denoise := 36/100 }

/-- The `"watercolor"` preset. -/
def watercolor : StylePreset :=
  { name := "watercolor"
    positive_tags :=
      ["watercolor painting, soft edges, paper texture, delicate wash, hand-painted look"]
    negative_tags := [NEGATIVE_BASE, "photoreal"]
    resolution := (1024, 1024)
    steps := 28
    cfg := 7
    hires := false
    hires_scale := 1
    hires_denoise := 0 }

/-- The `"art_deco_poster"` preset. -/
def art_deco_poster : StylePreset :=
  { name := "art_deco_poster"
    positive_tags :=
      ["art deco, bold geometry, limited palette, high contrast, poster design, clean lines"]
    negative_tags := [NEGATIVE_BASE, "photoreal"]
    resolution := (1024, 1536)
    steps := 30
    cfg := 72/10
    hires := true
    hires_scale := 3/2
    hires_denoise := 30/100 }

/-- The `"anime"` preset. -/
def anime : StylePreset :=
  { name := "anime"
    positive_tags :=
      ["anime style, crisp lineart, cel shading, vibrant colors, studio quality"]
    negative_tags := [NEGATIVE_BASE, "realistic skin pores"]
    resolution := (1024, 1024)
    steps := 28
    cfg := 7
    hires := true
    hires_scale := 16/10
    hires_denoise := 33/100 }

/-- The `STYLE_PRESETS` dict of `prompt_styles.py`, as an association list in
source order. -/
def STYLE_PRESETS : List (String × StylePreset) :=
  [("photoreal_portrait", photoreal_portrait),
   ("cinematic", cinematic),
   ("editorial", editorial),
   ("street", street),
   ("neon", neon),
   ("watercolor", watercolor),
   ("art_deco_poster", art_deco_poster),
   ("anime", anime)]

/-- Embedding of `STYLE_PRESETS.get(style_key, STYLE_PRESETS["photoreal_portrait"])`:
dict lookup with the default preset as fallback. -/
def STYLE_PRESETS_get (style_key : String) : StylePreset :=
  (STYLE_PRESETS.lookup style_key).getD photoreal_portrait

/-! ## prompt_builder.py -/

/-- The `FACE_KEYWORDS` list of `prompt_builder.py`. -/
def FACE_KEYWORDS : List String :=
  ["portrait", "face", "selfie", "headshot", "person", "model", "bust", "upper body"]

/-- Embedding of `should_enhance(prompt)`: lower-case the prompt, then test whether any
face keyword occurs as a substring (Python `k in p`). -/
def should_enhance (prompt : String) : Bool :=
  let p := prompt.map Char.toLower
  FACE_KEYWORDS.any (fun k => decide (k.data <:+: p.data))

/-- Embedding of `build_prompts(user_prompt, style_key)` of `prompt_builder.py`. -/
def build_prompts (user_prompt style_key : String) : String × String :=
  let style := STYLE_PRESETS_get style_key
  (user_prompt ++ ", " ++ String.intercalate ", " style.positive_tags,
   String.intercalate ", " style.negative_tags)

/-- The dict returned by `style_params(style_key)` of `prompt_builder.py`. -/
structure Params where
  width : ℕ
  height : ℕ
  steps : ℕ
  cfg : ℚ
  hires : Bool
  hires_scale : ℚ
  hires_denoise : ℚ
deriving DecidableEq, Repr

/-- Embedding of `style_params(style_key)` of `prompt_builder.py`. -/
def style_params (style_key : String) : Params :=
  let style := STYLE_PRESETS_get style_key
  { width := style.resolution.1
    height := style.resolution.2
    steps := style.steps
    cfg := style.cfg
    hires := style.hires
    hires_scale := style.hires_scale
    hires_denoise := style.hires_denoise }

/-! ## generator_api.py — model lifecycle

The module globals `_base_pipeline` / `_refiner_pipeline` are embedded as an
explicit state. Handle identities are natural numbers drawn from a fresh
counter, standing for the distinct pipeline objects `from_pretrained` would
construct. -/

/-- The two module-global pipeline slots of `generator_api.py`, plus a
fresh-handle counter. -/
structure PipelineState where
  base : Option ℕ
  refiner : Option ℕ
  next : ℕ
deriving DecidableEq, Repr

/-- Embedding of `get_base_pipeline()`: construct and cache on first use, thereafter
return the cached handle. -/
def get_base_pipeline (s : PipelineState) : ℕ × PipelineState :=
  match s.base with
  | some h => (h, s)
  | none => (s.next, { s with base := some s.next, next := s.next + 1 })

/-- Embedding of `get_refiner_pipeline()`: construct and cache on first use, thereafter
return the cached handle. -/
def get_refiner_pipeline (s : PipelineState) : ℕ × PipelineState :=
  match s.refiner with
  | some h => (h, s)
  | none => (s.next, { s with refiner := some s.next, next := s.next + 1 })

/-- Embedding of `unload_base()`: drop the base handle (and synchronously free its
memory via `torch.cuda.empty_cache()`). -/
def unload_base (s : PipelineState) : PipelineState :=
  { s with base := none }

/-- Embedding of `unload_refiner()`: drop the refiner handle. -/
def unload_refiner (s : PipelineState) : PipelineState :=
  { s with refiner := none }

/-- Both model kinds resident at once. -/
def bothResident (s : PipelineState) : Bool :=
  s.base.isSome && s.refiner.isSome

/-! ## generator_api.py — hires_fix parameter derivation -/

/-- The arguments `hires_fix` passes to the base (synthesis) pipeline call. -/
structure SynthCall where
  width : ℕ
  height : ℕ
  steps : ℕ
  cfg : ℚ
deriving DecidableEq, Repr

/-- The arguments `hires_fix` passes to the refiner (img2img) pipeline call. -/
structure RefineCall where
  strength : ℚ
  steps : ℕ
  cfg : ℚ
deriving DecidableEq, Repr

/-- The parameter derivation of `hires_fix(prompt, negative, seed, width,
height, steps, cfg, scale, denoise)`:

* pass 1 runs at `low_w = max(int(width / scale), 768)` (likewise height)
  with `num_inference_steps = max(steps, 28)`;
* pass 2 runs at `strength = denoise` with
  `num_inference_steps = int(steps * 0.7)`.

`int(width / scale)` and `int(steps * 0.7)` are embedded in exact rational
arithmetic (`Rat.floor`; the operands are nonnegative, so Python `int`
truncation is the floor). The source computes them in binary floating
point; the two agree at every preset step count in the catalog (all
≤ 36 — the first step count where they part is 90) and at every
width/scale pair the catalog can produce. -/
def hires_fix_calls (width height steps : ℕ) (cfg scale denoise : ℚ) :
    SynthCall × RefineCall :=
  let low_w := max (Rat.floor ((width : ℚ) / scale)).toNat 768
  let low_h := max (Rat.floor ((height : ℚ) / scale)).toNat 768
  ({ width := low_w, height := low_h, steps := max steps 28, cfg := cfg },
   { strength := denoise, steps := 7 * steps / 10, cfg := cfg })

/-! ## generator_api.py — resource traces

`hires_fix` and the single-pass branch of `generate` touch the model slots
in a fixed order, with no `try/finally`: an exception from a pipeline
invocation propagates at once, skipping every later unload. `*_exec` runs
one request shape from a starting state, with a flag per model invocation
saying whether that invocation succeeds, and returns the outcome, the final
state, and the list of intermediate states (after each step that can change
residency, starting from the state after the first acquire). -/

/-- Outcome of one request shape. -/
inductive RunResult where
  | success
  | baseFailed
  | refinerFailed
deriving DecidableEq, Repr

/-- Resource trace of `hires_fix`: acquire base → base invocation →
(resize) → `unload_base()` → acquire refiner → refiner invocation →
`unload_refiner()`. A failing invocation raises, so later unloads are
skipped. -/
def hires_fix_exec (s0 : PipelineState) (baseOk refinerOk : Bool) :
    RunResult × PipelineState × List PipelineState :=
  let s1 := (get_base_pipeline s0).2
  if !baseOk then (.baseFailed, s1, [s1])
  else
    let s2 := unload_base s1
    let s3 := (get_refiner_pipeline s2).2
    if !refinerOk then (.refinerFailed, s3, [s1, s2, s3])
    else
      let s4 := unload_refiner s3
      (.success, s4, [s1, s2, s3, s4])

/-- Resource trace of the single-pass (`hires` disabled) branch of
`generate`: acquire base → base invocation → `unload_base()` → acquire
refiner → refiner polish invocation → `unload_refiner()`. -/
def single_pass_exec (s0 : PipelineState) (baseOk refinerOk : Bool) :
    RunResult × PipelineState × List PipelineState :=
  let s1 := (get_base_pipeline s0).2
  if !baseOk then (.baseFailed, s1, [s1])
  else
    let s2 := unload_base s1
    let s3 := (get_refiner_pipeline s2).2
    if !refinerOk then (.refinerFailed, s3, [s1, s2, s3])
    else
      let s4 := unload_refiner s3
      (.success, s4, [s1, s2, s3, s4])

/-! ## generator_api.py — maybe_enhance -/

/-- What the HTTP round trip inside `maybe_enhance` can yield, seen from
the caller: either a 2xx response whose JSON body has an
`enhanced_base64` field, or any failure (`requests.post` timeout or
transport error, `raise_for_status()` on a non-2xx, JSON decode error,
missing key — every one raises and lands in the `except` arm). -/
inductive EnhancerResponse where
  | ok (enhanced_base64 : String)
  | failure
deriving DecidableEq, Repr

/-- Embedding of `maybe_enhance(img, do_face, upscale, jpeg_proxy)`. The network call is
passed in as its outcome `resp`; `b64_to_image` is the decoder, `none`
standing for a decode that raises on a malformed payload. Any raise inside
the `try` is caught and the original `img` is returned. -/
def maybe_enhance {Image : Type} (img : Image) (do_face : Bool) (upscale : ℤ)
    (jpeg_proxy : Bool) (resp : EnhancerResponse)
    (b64_to_image : String → Option Image) : Image :=
  match resp with
  | .ok b =>
    match b64_to_image b with
    | some enhanced => enhanced
    | none => img
  | .failure => img

/-! ## firebase_utils.py -/

/-- Embedding of `save_png_bytes_and_get_url(png_bytes, filename_prefix)`:
`initialized` stands for `_initialized` after `init_firebase()` (false when
credentials are not configured), `upload` for the outcome of the
bucket upload + `make_public()` round trip. Any exception is caught and
`None` returned. -/
def save_png_bytes_and_get_url (initialized : Bool)
    (upload : Except String String) : Option String :=
  if initialized then
    match upload with
    | .ok url => some url
    | .error _ => none
  else none

/-! ## generator_api.py — generate -/

/-- The `do_face` resolution in `generate`:
`do_face = auto_face if req.face_enhance is None else req.face_enhance`,
with `auto_face = should_enhance(req.prompt)`. -/
def resolve_do_face (face_enhance : Option Bool) (prompt : String) : Bool :=
  match face_enhance with
  | none => should_enhance prompt
  | some b => b

/-- The guard `if do_face or req.upscale in (2, 4):` in `generate`. -/
def enhance_condition (do_face : Bool) (upscale : ℤ) : Bool :=
  do_face || (upscale == 2 || upscale == 4)

/-- The enhancement step of `generate`: call `maybe_enhance` when the guard
holds, otherwise hand the generated image on unchanged. -/
def post_generate {Image : Type} (img : Image) (do_face : Bool) (upscale : ℤ)
    (jpeg_proxy : Bool) (resp : EnhancerResponse)
    (b64_to_image : String → Option Image) : Image :=
  if enhance_condition do_face upscale then
    maybe_enhance img do_face upscale jpeg_proxy resp b64_to_image
  else img

/-- The `meta` dict of the response returned by `generate`. -/
structure RunMeta where
  prompt : String
  style : String
  seed : ℤ
  width : ℕ
  height : ℕ
  steps : ℕ
  cfg : ℚ
  hires : Bool
  hires_scale : ℚ
  hires_denoise : ℚ
  face_enhance : Bool
  upscale : ℤ
deriving DecidableEq, Repr

/-- The `meta` dict `generate` builds for the response: every field is
copied from the request or from `style_params(req.style)` — in particular
`"hires_scale"` is `params["hires_scale"]`, the preset's nominal value. -/
def generate_meta (prompt style : String) (seed : ℤ)
    (face_enhance : Option Bool) (upscale : ℤ) : RunMeta :=
  let params := style_params style
  { prompt := prompt
    style := style
    seed := seed
    width := params.width
    height := params.height
    steps := params.steps
    cfg := params.cfg
    hires := params.hires
    hires_scale := params.hires_scale
    hires_denoise := params.hires_denoise
    face_enhance := resolve_do_face face_enhance prompt
    upscale := upscale }

/-- The response dict of `generate`. -/
structure ResponseEnvelope where
  image_base64 : String
  public_url : Option String
  meta : RunMeta
deriving DecidableEq, Repr

/-- The tail of `generate`: encode, persist, and return the response dict.
`generate` uses whatever `save_png_bytes_and_get_url` returned (possibly
`None`) and always builds the same success envelope. -/
def generate_tail (png_b64 : String) (initialized : Bool)
    (upload : Except String String) (meta : RunMeta) : ResponseEnvelope :=
  { image_base64 := png_b64
    public_url := save_png_bytes_and_get_url initialized upload
    meta := meta }

/-! ## Claim theorems -/

/-- The function `Rat.floor` is the floor of the `FloorRing ℚ` instance. -/
theorem rat_floor_spec (q : ℚ) : Rat.floor q = ⌊q⌋ := rfl

/-- The clamped first-pass width of the `photoreal_portrait` request:
`int(1024 / 2.0) = 512`, raised to the 768 floor. -/
theorem low_width_1024_scale_2 :
    max (Rat.floor ((1024 : ℚ) / 2)).toNat 768 = 768 := by
  have h : Rat.floor ((1024 : ℚ) / 2) = 512 := by norm_num [Rat.floor_def']
  rw [h]
  rfl

/-- Resolving the default key yields the default preset. -/
theorem default_key_resolves :
    STYLE_PRESETS_get "photoreal_portrait" = photoreal_portrait := by
  simp [STYLE_PRESETS_get, STYLE_PRESETS, List.lookup]

/-- C1: whenever the external enhancement call fails in any way (timeout,
transport error, non-2xx status, absent capability — all collapsed into
`EnhancerResponse.failure`) or the response payload is malformed (the
decoder raises, i.e. returns `none`), `maybe_enhance` does not raise and
returns its input image unchanged. -/
theorem maybe_enhance_failure_is_identity {Image : Type} (img : Image)
    (do_face : Bool) (upscale : ℤ) (jpeg_proxy : Bool)
    (b64_to_image : String → Option Image) :
    maybe_enhance img do_face upscale jpeg_proxy .failure b64_to_image = img ∧
    ∀ b, b64_to_image b = none →
      maybe_enhance img do_face upscale jpeg_proxy (.ok b) b64_to_image = img := by
  refine ⟨rfl, fun b hb => ?_⟩
  simp [maybe_enhance, hb]

/-- Witness for C1 at a concrete image and a decoder that always fails. -/
theorem maybe_enhance_failure_is_identity_witness :
    maybe_enhance (5 : ℕ) true 2 true .failure (fun _ => none) = 5 ∧
    maybe_enhance (5 : ℕ) true 2 true (.ok "!!") (fun _ => none) = 5 :=
  ⟨(maybe_enhance_failure_is_identity 5 true 2 true (fun _ => none)).1,
   (maybe_enhance_failure_is_identity 5 true 2 true (fun _ => none)).2 "!!" rfl⟩

/-- C2, counterexample: for `width = 1024`, `hires_scale = 2.0` the clamp
does engage (first-pass width is 768, not 512), but the metadata
`generate` returns records the preset's nominal `hires_scale = 2.0`, which
is not the effective scale `1024/768 ≈ 1.33`: no effective scale is
recomputed or recorded anywhere. -/
theorem nominal_scale_recorded_cex :
    (hires_fix_calls 1024 1024 35 7 2 (35/100)).1.width = 768 ∧
    (generate_meta "p" "photoreal_portrait" 42 (some false) 0).hires_scale = 2 ∧
    (2 : ℚ) ≠ 1024 / 768 := by
  refine ⟨?_, ?_, by norm_num⟩
  · show max (Rat.floor ((1024 : ℚ) / 2)).toNat 768 = 768
    exact low_width_1024_scale_2
  · show (style_params "photoreal_portrait").hires_scale = 2
    simp [style_params, default_key_resolves, photoreal_portrait]

/-- C2, amended: in hires-fix mode the first-pass resolution is
`low = max(floor(target / hires_scale), 768)` per axis, clamped to the
768 floor when smaller; but the effective scale is never recomputed — the
returned metadata always records the preset's nominal `hires_scale`
(so 2.0 for `photoreal_portrait`, not ≈1.33). -/
theorem hires_clamp_and_nominal_scale (width height steps : ℕ)
    (cfg scale denoise : ℚ) (prompt style : String) (seed : ℤ)
    (face_enhance : Option Bool) (upscale : ℤ) :
    (hires_fix_calls width height steps cfg scale denoise).1.width =
      max (Rat.floor ((width : ℚ) / scale)).toNat 768 ∧
    (hires_fix_calls width height steps cfg scale denoise).1.height =
      max (Rat.floor ((height : ℚ) / scale)).toNat 768 ∧
    (generate_meta prompt style seed face_enhance upscale).hires_scale =
      (style_params style).hires_scale ∧
    (hires_fix_calls 1024 1024 35 7 2 (35/100)).1.width = 768 ∧
    (style_params "photoreal_portrait").hires_scale = 2 :=
  ⟨rfl, rfl, rfl, low_width_1024_scale_2,
   by simp [style_params, default_key_resolves, photoreal_portrait]⟩

/-- C3: starting a request with no refinement model resident (the state
every request shape leaves behind on success, and the state at module
load), at every point of both request shapes — whatever the fate of the
two model invocations — the synthesis and refinement handles are never
simultaneously resident: the base pipeline is unloaded before the refiner
pipeline is acquired. -/
theorem models_never_simultaneously_resident (s0 : PipelineState)
    (h : s0.refiner = none) (baseOk refinerOk : Bool) :
    (∀ s ∈ (hires_fix_exec s0 baseOk refinerOk).2.2, bothResident s = false) ∧
    (∀ s ∈ (single_pass_exec s0 baseOk refinerOk).2.2, bothResident s = false) := by
  obtain ⟨b, r, n⟩ := s0
  simp only at h
  subst h
  cases b <;> cases baseOk <;> cases refinerOk <;>
    simp [hires_fix_exec, single_pass_exec, get_base_pipeline,
      get_refiner_pipeline, unload_base, unload_refiner, bothResident]

/-- Witness for C3 at the module-load state, successful invocations: the
state with only the base pipeline resident is on the trace and is not
doubly resident. -/
theorem models_never_simultaneously_resident_witness :
    bothResident ⟨some 0, none, 1⟩ = false :=
  (models_never_simultaneously_resident ⟨none, none, 0⟩ rfl true true).1
    ⟨some 0, none, 1⟩ (by decide)

/-- C4, counterexample: from the module-load state, if the synthesis
(base) invocation inside `hires_fix` fails, the request aborts while the
just-acquired base handle is still resident — there is no `try/finally`,
so the matching `unload_base()` never runs. -/
theorem leaked_handle_on_base_failure :
    (hires_fix_exec ⟨none, none, 0⟩ false true).1 = .baseFailed ∧
    (hires_fix_exec ⟨none, none, 0⟩ false true).2.1.base = some 0 := by
  exact ⟨rfl, rfl⟩

/-- C4, amended: releases are guaranteed only on the success path. In both
request shapes a successful run ends with both handles released; but a
fatal synthesis-invocation failure aborts with the synthesis handle still
resident, and a fatal refinement-invocation failure aborts with the
refinement handle still resident (the synthesis handle having already been
released before it was acquired). -/
theorem release_only_on_success (s0 : PipelineState) :
    ((hires_fix_exec s0 true true).2.1.base = none ∧
     (hires_fix_exec s0 true true).2.1.refiner = none) ∧
    (hires_fix_exec s0 false true).2.1.base ≠ none ∧
    ((hires_fix_exec s0 true false).2.1.base = none ∧
     (hires_fix_exec s0 true false).2.1.refiner ≠ none) ∧
    ((single_pass_exec s0 true true).2.1.base = none ∧
     (single_pass_exec s0 true true).2.1.refiner = none) ∧
    (single_pass_exec s0 false true).2.1.base ≠ none ∧
    ((single_pass_exec s0 true false).2.1.base = none ∧
     (single_pass_exec s0 true false).2.1.refiner ≠ none) := by
  obtain ⟨b, r, n⟩ := s0
  cases b <;> cases r <;>
    simp [hires_fix_exec, single_pass_exec, get_base_pipeline,
      get_refiner_pipeline, unload_base, unload_refiner]

/-- C5: a style key not present in the catalog resolves, without error, to
exactly the designated default preset (`photoreal_portrait`), both through
the raw dict lookup and through `style_params`; resolving the default key
itself yields that same preset, so the fallback is idempotent. -/
theorem unknown_style_resolves_to_default (style_key : String)
    (h : STYLE_PRESETS.lookup style_key = none) :
    STYLE_PRESETS_get style_key = STYLE_PRESETS_get "photoreal_portrait" ∧
    STYLE_PRESETS_get "photoreal_portrait" = photoreal_portrait ∧
    style_params style_key = style_params "photoreal_portrait" := by
  have h1 : STYLE_PRESETS_get style_key = photoreal_portrait := by
    simp [STYLE_PRESETS_get, h]
  refine ⟨h1.trans default_key_resolves.symm, default_key_resolves, ?_⟩
  simp [style_params, h1, default_key_resolves]

/-- Witness for C5 at a key absent from the catalog. -/
theorem unknown_style_resolves_to_default_witness :
    STYLE_PRESETS.lookup "no_such_style" = none ∧
    STYLE_PRESETS_get "no_such_style" = STYLE_PRESETS_get "photoreal_portrait" :=
  ⟨by decide, (unknown_style_resolves_to_default "no_such_style" (by decide)).1⟩

/-- C6: a failed upload to the object store is absorbed:
`save_png_bytes_and_get_url` returns `None`, and `generate` still returns
its normal success envelope, with the same encoded image bytes and the
failure visible only as the absent URL. -/
theorem persistence_failure_degrades_to_absent_url (png_b64 : String)
    (initialized : Bool) (e : String) (meta : RunMeta) :
    save_png_bytes_and_get_url initialized (.error e) = none ∧
    generate_tail png_b64 initialized (.error e) meta =
      { image_base64 := png_b64, public_url := none, meta := meta } := by
  have h : save_png_bytes_and_get_url initialized (.error e) = none := by
    cases initialized <;> rfl
  exact ⟨h, by simp [generate_tail, h]⟩

/-- C7: acquiring a model kind twice without an intervening release
returns the same handle and leaves the cache untouched: a second
`get_base_pipeline` (resp. `get_refiner_pipeline`) call on the state left
by the first returns exactly the pair the first returned. -/
theorem acquire_is_idempotent (s : PipelineState) :
    get_base_pipeline (get_base_pipeline s).2 = get_base_pipeline s ∧
    get_refiner_pipeline (get_refiner_pipeline s).2 = get_refiner_pipeline s := by
  obtain ⟨b, r, n⟩ := s
  constructor
  · cases b <;> simp [get_base_pipeline]
  · cases r <;> simp [get_refiner_pipeline]

/-- C8: `should_enhance` returns `true` exactly when the lower-cased
prompt contains one of the fixed face keywords as a substring; and its
result decides `do_face` only when the request's explicit `face_enhance`
override is `None` — an explicit override wins unconditionally. -/
theorem face_keyword_detection (prompt : String) :
    (should_enhance prompt = true ↔
      ∃ k ∈ FACE_KEYWORDS, k.data <:+: (prompt.map Char.toLower).data) ∧
    resolve_do_face none prompt = should_enhance prompt ∧
    ∀ b, resolve_do_face (some b) prompt = b := by
  refine ⟨?_, rfl, fun b => rfl⟩
  simp [should_enhance, List.any_eq_true]

/-- C9: for the admissible upscale factors 0, 2, 4, the enhancement
delegate is invoked exactly when `do_face` holds or the upscale factor is
nonzero; and when the guard is false the generated image reaches packaging
unchanged, with no enhancement call at all. -/
theorem enhancement_gate (do_face : Bool) (upscale : ℤ)
    (h : upscale = 0 ∨ upscale = 2 ∨ upscale = 4) :
    (enhance_condition do_face upscale = true ↔ (do_face = true ∨ upscale ≠ 0)) ∧
    ∀ {Image : Type} (img : Image) (jpeg_proxy : Bool)
      (resp : EnhancerResponse) (b64_to_image : String → Option Image),
      enhance_condition do_face upscale = false →
        post_generate img do_face upscale jpeg_proxy resp b64_to_image = img := by
  constructor
  · rcases h with h | h | h <;> subst h <;> cases do_face <;>
      simp [enhance_condition]
  · intro Image img jp resp dec hc
    simp [post_generate, hc]

/-- Witness for C9 at `do_face = false`, `upscale = 0`: the guard is off
and the image is passed through unchanged. -/
theorem enhancement_gate_witness :
    (enhance_condition false 0 = true ↔ (false = true ∨ (0 : ℤ) ≠ 0)) ∧
    post_generate (3 : ℕ) false 0 true .failure (fun _ => none) = 3 :=
  ⟨(enhancement_gate false 0 (Or.inl rfl)).1,
   (enhancement_gate false 0 (Or.inl rfl)).2 3 true .failure (fun _ => none)
     (by decide)⟩

/-- C10: the synthesis pass of `hires_fix` always gets
`max(steps, 28) ≥ 28` inference steps, silently raising any preset that
asks for fewer; the refinement pass gets `int(steps * 0.7)` — for every
preset in the catalog that is `7·steps/10` — with no such floor: at
`steps = 28` the refinement pass runs only 19 < 28 steps. -/
theorem hires_steps_policy :
    (∀ (width height steps : ℕ) (cfg scale denoise : ℚ),
        (hires_fix_calls width height steps cfg scale denoise).1.steps =
          max steps 28 ∧
        28 ≤ (hires_fix_calls width height steps cfg scale denoise).1.steps) ∧
    (∀ p ∈ STYLE_PRESETS,
        (hires_fix_calls p.2.resolution.1 p.2.resolution.2 p.2.steps p.2.cfg
            p.2.hires_scale p.2.hires_denoise).2.steps = 7 * p.2.steps / 10) ∧
    (hires_fix_calls 1024 1024 28 7 (16/10) (33/100)).2.steps = 19 ∧
    ¬ 28 ≤ (hires_fix_calls 1024 1024 28 7 (16/10) (33/100)).2.steps := by
  refine ⟨fun w h steps cfg scale denoise => ⟨rfl, le_max_right _ _⟩,
    fun p _ => rfl, by decide, by decide⟩

/-- Witness for C10 at the `photoreal_portrait` preset. -/
theorem hires_steps_policy_witness :
    (hires_fix_calls 1024 1024 35 7 2 (35/100)).2.steps = 7 * 35 / 10 :=
  hires_steps_policy.2.1 ("photoreal_portrait", photoreal_portrait)
    (List.Mem.head _)

end Carrot
